import Mathlib

/-
  Verification development for the Synset component of OpenDutchWordnet
  (src/opendutchwordnet/synset.py).

  The component is a view over one XML element. We model XML elements as a
  tag, an attribute list and a child list, and each method of the Synset
  class as a Lean function translated line by line from the source. The
  lxml element API is assumed (the source prefers lxml): appending an
  element that already has a parent MOVES it to the new position, and
  getparent gives access to the parent element.

  Python exceptions are modelled by the Err type; a call that raises is
  modelled as returning the state reached so far together with the error
  (Python exceptions do not roll back earlier mutations).
-/

namespace ODWN

/-- XML element: tag, attribute list, child list (document order). -/
inductive Elem : Type where
| mk (tag : String) (attrs : List (String × String)) (children : List Elem)

/-- Tag of an element. -/
def Elem.tag : Elem → String
| .mk t _ _ => t

/-- Attribute list of an element. -/
def Elem.attrs : Elem → List (String × String)
| .mk _ a _ => a

/-- Child list of an element. -/
def Elem.children : Elem → List Elem
| .mk _ _ c => c

/-- Element.get(key): the value of an attribute, or None when absent. -/
def Elem.get (e : Elem) (k : String) : Option String :=
  (e.attrs.find? (fun p => p.1 = k)).map (fun p => p.2)

/-- Element.find(tag): the first direct child with the given tag, or None. -/
def Elem.find (e : Elem) (t : String) : Option Elem :=
  e.children.find? (fun c => c.tag = t)

/-- Position of the first direct child with the given tag. This models the
object reference returned by Element.find: the Python Synset object caches
that reference, and we represent the cached reference by the index of the
child it points at. -/
def find_child_idx (cs : List Elem) (t : String) : Option Nat :=
  match cs with
  | [] => none
  | c :: rest =>
    if c.tag = t then some 0 else (find_child_idx rest t).map (fun n => n + 1)

/-- Python exceptions and validation failures raised by the component. An
attributeError names the missing member of the failed attribute lookup. -/
inductive Err : Type where
| attributeError (member : String)
| valueError (msg : String)
| typeError (msg : String)
| indexError (msg : String)
| invalidRelationType
| invalidTarget
deriving DecidableEq

/-- Error kind DuplicateRelation of the design: realized in the source as
the ValueError raised when the (type, target) pair already exists. -/
def DuplicateRelation : Err := Err.valueError "relation already exists"

/-- Error kind DetachedNodeError of the design: the failure of remove on a
node with no parent, realized in the source as the attribute error raised
by calling remove on the None result of getparent. -/
def DetachedNodeError : Err := Err.attributeError "remove"

/-- Modelled from the spec: the Relation view (class Relation of the module
relation, imported by synset.py but outside src) wraps one SynsetRelation
element; its type is the relType attribute and its target the target
attribute of that element. -/
structure Relation : Type where
  el : Elem

/-- Modelled from the spec: Relation.get_reltype returns the relType
attribute of the wrapped element. -/
def Relation.get_reltype (r : Relation) : Option String := r.el.get "relType"

/-- Modelled from the spec: Relation.get_target returns the target
attribute of the wrapped element. -/
def Relation.get_target (r : Relation) : Option String := r.el.get "target"

/-- State of one Synset object. synset_el is the wrapped element. parentRest
describes the parent element of synset_el: some (b, a) means the parent
exists and its children are b ++ [synset_el] ++ a; none means the node is
detached (or the document root). reltypes and syn_ids are the vocabulary
sets passed to the constructor. defs_els and refs_el are the references
cached by the constructor (self.defs_els, self.refs_el), represented as the
index of the child they point at, or none when find returned None. -/
structure Synset : Type where
  synset_el : Elem
  parentRest : Option (List Elem × List Elem)
  reltypes : List String
  syn_ids : List String
  defs_els : Option Nat
  refs_el : Option Nat

/-- Constructor of class Synset: stores the element and the vocabularies and
caches self.defs_els = find Definitions, self.refs_el = find SynsetRelations. -/
def mkSynset (synset_el : Elem) (parentRest : Option (List Elem × List Elem))
    (reltypes syn_ids : List String) : Synset :=
  { synset_el := synset_el
    parentRest := parentRest
    reltypes := reltypes
    syn_ids := syn_ids
    defs_els := find_child_idx synset_el.children "Definitions"
    refs_el := find_child_idx synset_el.children "SynsetRelations" }

/-- Synset.id: the id attribute of the element. -/
def Synset.id (s : Synset) : Option String := s.synset_el.get "id"

/-- Synset.ili: the ili attribute of the element. -/
def Synset.ili (s : Synset) : Option String := s.synset_el.get "ili"

/-- Synset.glosses(languages): when the cached Definitions reference is not
None, the gloss attribute of each Definition child whose language attribute
is in languages, in document order; otherwise the empty list. The inner
fallback for an out of range cached index is unreachable for states built
by mkSynset. -/
def Synset.glosses (s : Synset) (languages : List String) : List (Option String) :=
  match s.defs_els with
  | none => []
  | some i =>
    match s.synset_el.children.get? i with
    | none => []
    | some defs =>
      (((defs.children.filter (fun d => d.tag = "Definition")).filter
          (fun d => match d.get "language" with
                    | some l => languages.contains l
                    | none => false)).map (fun d => d.get "gloss"))

/-- Synset.glosses with the default argument of the source, languages =
("en", "nl"). -/
def Synset.glosses_default (s : Synset) : List (Option String) :=
  Synset.glosses s ["en", "nl"]

/-- Synset.all_relations: iterfind("SynsetRelations/SynsetRelation") wrapped
in Relation views, one SynsetRelation child per SynsetRelations child, in
document order. -/
def Synset.all_relations (s : Synset) : List Relation :=
  ((s.synset_el.children.filter (fun c => c.tag = "SynsetRelations")).flatMap
    (fun c => c.children.filter (fun r => r.tag = "SynsetRelation"))).map Relation.mk

/-- Synset.relations(reltype): iterfind with the XPath predicate
[@relType=reltype] on the SynsetRelation step. -/
def Synset.relations (s : Synset) (reltype : String) : List Relation :=
  ((s.synset_el.children.filter (fun c => c.tag = "SynsetRelations")).flatMap
    (fun c => (c.children.filter (fun r => r.tag = "SynsetRelation")).filter
      (fun r => r.get "relType" = some reltype))).map Relation.mk

/-- Synset.pos: self.id()[-1]. Indexing None raises a type error, indexing
the empty string raises an index error, otherwise the result is the last
character of the identifier. -/
def Synset.pos (s : Synset) : Except Err Char :=
  match Synset.id s with
  | none => Except.error (Err.typeError "NoneType is not subscriptable")
  | some str =>
    if str.data = [] then Except.error (Err.indexError "string index out of range")
    else Except.ok (str.data.getLastD 'a')

/-- Children of the parent element of the node, or none when detached: the
parent holds parentRest.1, then synset_el, then parentRest.2. -/
def Synset.parent_children (s : Synset) : Option (List Elem) :=
  match s.parentRest with
  | none => none
  | some (b, a) => some (b ++ [s.synset_el] ++ a)

/-- Synset.remove: self.synset_el.getparent().remove(self.synset_el). When
the node has a parent, the element is detached from it, leaving the parent
with children parentRest.1 ++ parentRest.2; when getparent() is None the
remove call on it raises. -/
def Synset.remove (s : Synset) : Synset × Except Err Unit :=
  match s.parentRest with
  | none => (s, Except.error DetachedNodeError)
  | some _ => ({ s with parentRest := none }, Except.ok ())

/-- Replace the element with a copy whose child list has one more child at
the end (the effect of SubElement on the parent argument). -/
def appendChild (e : Elem) (c : Elem) : Elem :=
  Elem.mk e.tag e.attrs (e.children ++ [c])

/-- Apply f to the child at index i, when it exists. -/
def setChild (cs : List Elem) (i : Nat) (f : Elem → Elem) : List Elem :=
  match cs.get? i with
  | none => cs
  | some c => cs.set i (f c)

/-- The lxml move performed by the final refs_el.append(new_rel_el) of
add_relation: new_rel_el is at that point the last child of synset_el, so
it is detached from synset_el and appended under the child at index i. -/
def refs_append_move (e : Elem) (i : Nat) : Elem :=
  match e.children.getLast? with
  | none => e
  | some last => Elem.mk e.tag e.attrs (setChild e.children.dropLast i (fun c => appendChild c last))

/-- Modelled from the spec: the relation validation routine. add_relation
calls self.validate_relation, which no code under src defines; per the
design it checks the type against the known relation type vocabulary and
the target against the known node identifier vocabulary, failing with
InvalidRelationType respectively InvalidTarget. -/
def validate_relation_spec (reltypes syn_ids : List String)
    (_source : Option String) (reltype target : String) : Except Err Unit :=
  if reltypes.contains reltype then
    if syn_ids.contains target then Except.ok ()
    else Except.error Err.invalidTarget
  else Except.error Err.invalidRelationType

/-- Synset.add_relation(reltype, target), translated line by line and
parameterized by the result of the attribute lookup for
self.validate_relation (none when the lookup fails, which raises). The
returned value on success is None, since the source body has no return
statement; we give it the type of the pair the docstring promises, so that
the absence of the pair is visible. On an exception the state reached so
far is returned with the error. -/
def Synset.add_relation_with
    (validate : Option (Option String → String → String → Except Err Unit))
    (s : Synset) (reltype target : String) :
    Synset × Except Err (Option (Bool × String)) :=
  let source := Synset.id s
  match validate with
  | none => (s, Except.error (Err.attributeError "validate_relation"))
  | some v =>
    match v source reltype target with
    | Except.error e => (s, Except.error e)
    | Except.ok _ =>
      let existing_rels := (Synset.all_relations s).map
        (fun r => (Relation.get_reltype r, Relation.get_target r))
      if existing_rels.contains (some reltype, some target) then
        (s, Except.error DuplicateRelation)
      else
        let s1 := if s.refs_el = none then
            { s with synset_el := appendChild s.synset_el (Elem.mk "SynsetRelations" [] []) }
          else s
        let new_rel_el := Elem.mk "SynsetRelation"
          [("provenance", "odwn"), ("relType", reltype), ("target", target)] []
        let s2 := { s1 with synset_el := appendChild s1.synset_el new_rel_el }
        match s.refs_el with
        | none => (s2, Except.error (Err.attributeError "append"))
        | some i => ({ s2 with synset_el := refs_append_move s2.synset_el i }, Except.ok none)

/-- Synset.add_relation as defined in src: the class defines no
validate_relation member, so the attribute lookup on self fails. -/
def Synset.add_relation (s : Synset) (reltype target : String) :
    Synset × Except Err (Option (Bool × String)) :=
  Synset.add_relation_with none s reltype target

/-- Synset.add_relation with the validation collaborator modelled from the
spec supplied for the missing self.validate_relation. -/
def Synset.add_relation_v (s : Synset) (reltype target : String) :
    Synset × Except Err (Option (Bool × String)) :=
  Synset.add_relation_with (some (validate_relation_spec s.reltypes s.syn_ids)) s reltype target


/-- Definition written from the claim for comparison: the gloss attribute of
each Definition child of the Definitions section (the first child with tag
Definitions) whose language attribute is a member of languages, in document
order; the empty list when no Definitions section exists. -/
def glosses_spec (synset_el : Elem) (languages : List String) : List (Option String) :=
  match synset_el.find "Definitions" with
  | none => []
  | some defs =>
    ((defs.children.filter (fun d => d.tag = "Definition")).filter
        (fun d => match d.get "language" with
                  | some l => languages.contains l
                  | none => false)).map (fun d => d.get "gloss")

/-- Concrete Definition element of the docstring example. -/
def ex_def_el : Elem :=
  Elem.mk "Definition"
    [("gloss", "cook with dry heat, usually in an oven"), ("language", "en"), ("provenance", "pwn")] []

/-- Concrete Definitions section. -/
def ex_defs_el : Elem := Elem.mk "Definitions" [] [ex_def_el]

/-- Concrete SynsetRelation element of the docstring example. -/
def ex_rel_el : Elem :=
  Elem.mk "SynsetRelation"
    [("provenance", "pwn"), ("relType", "has_hyperonym"), ("target", "eng-30-00322847-v")] []

/-- Concrete SynsetRelations container. -/
def ex_refs_el : Elem := Elem.mk "SynsetRelations" [] [ex_rel_el]

/-- Concrete Synset element of the docstring example. -/
def ex_syn_el : Elem :=
  Elem.mk "Synset" [("id", "eng-30-00324560-v"), ("ili", "i23355")] [ex_defs_el, ex_refs_el]

/-- Known relation type vocabulary for the examples. -/
def ex_reltypes : List String := ["has_hyperonym", "has_hyponym"]

/-- Known node identifier vocabulary for the examples. -/
def ex_syn_ids : List String := ["eng-30-00322847-v", "eng-30-00325085-v"]

/-- Concrete detached Synset state. -/
def ex_syn : Synset := mkSynset ex_syn_el none ex_reltypes ex_syn_ids

/-- Concrete attached Synset state (sole child of its parent). -/
def ex_syn_attached : Synset := mkSynset ex_syn_el (some ([], [])) ex_reltypes ex_syn_ids

/-- Concrete Synset element with no SynsetRelations child. -/
def ex_syn_el_nocont : Elem := Elem.mk "Synset" [("id", "eng-30-00324560-v")] []

/-- Concrete Synset state constructed without a SynsetRelations child. -/
def ex_syn_nocont : Synset := mkSynset ex_syn_el_nocont none ex_reltypes ex_syn_ids

/-- The cached child index of mkSynset points at exactly the child that
Element.find returns. -/
theorem find_child_idx_spec (cs : List Elem) (t : String) :
    (match find_child_idx cs t with
     | none => (none : Option Elem)
     | some i => cs.get? i) = cs.find? (fun c => c.tag = t) := by
  induction cs with
  | nil => rfl
  | cons c rest ih =>
    by_cases h : c.tag = t
    · simp [find_child_idx, List.find?, h]
    · rw [show find_child_idx (c :: rest) t = (find_child_idx rest t).map (fun n => n + 1) by
        simp [find_child_idx, h]]
      rw [List.find?_cons_of_neg _ (by simp [h])]
      rw [← ih]
      cases hr : find_child_idx rest t with
      | none => simp
      | some i => simp

/-- C7: glosses on a constructed node agrees with the claim: exactly the
gloss texts of the Definition elements of the Definitions section whose
language is in the requested set, in document order, and the default
language set is (en, nl); when no Definitions section exists the result is
empty because glosses_spec is then the empty list. -/
theorem glosses_agrees_with_spec (el : Elem) (p : Option (List Elem × List Elem))
    (rts ids langs : List String) :
    Synset.glosses (mkSynset el p rts ids) langs = glosses_spec el langs ∧
    Synset.glosses_default (mkSynset el p rts ids) = glosses_spec el ["en", "nl"] := by
  have key : ∀ ls : List String,
      Synset.glosses (mkSynset el p rts ids) ls = glosses_spec el ls := by
    intro ls
    have h := find_child_idx_spec el.children "Definitions"
    unfold Synset.glosses glosses_spec mkSynset Elem.find
    cases hidx : find_child_idx el.children "Definitions" with
    | none => rw [hidx] at h; rw [← h]
    | some i => rw [hidx] at h; rw [← h]
  exact ⟨key langs, key ["en", "nl"]⟩

/-- C8: relations with a type filter returns exactly the subsequence of
all_relations whose relation type equals that type, hence the same count
and the same (type, target) content. -/
theorem relations_eq_filtered_all_relations (s : Synset) (t : String) :
    Synset.relations s t
      = (Synset.all_relations s).filter (fun r => Relation.get_reltype r = some t) ∧
    (Synset.relations s t).length
      = ((Synset.all_relations s).filter (fun r => Relation.get_reltype r = some t)).length ∧
    (Synset.relations s t).map (fun r => (Relation.get_reltype r, Relation.get_target r))
      = ((Synset.all_relations s).filter
          (fun r => Relation.get_reltype r = some t)).map
          (fun r => (Relation.get_reltype r, Relation.get_target r)) := by
  have h1 : Synset.relations s t
      = (Synset.all_relations s).filter (fun r => Relation.get_reltype r = some t) := by
    unfold Synset.relations Synset.all_relations
    rw [List.filter_map, List.filter_flatMap]
    rfl
  exact ⟨h1, by rw [h1], by rw [h1]⟩

/-- C9: for a node whose id attribute is present and non empty, pos is the
last character of the identifier. -/
theorem pos_is_last_char (s : Synset) (str : String)
    (h : Synset.id s = some str) (hne : str.data ≠ []) :
    Synset.pos s = Except.ok (str.data.getLast hne) := by
  unfold Synset.pos
  rw [h]
  simp [hne, List.getLastD_eq_getLast?, List.getLast?_eq_getLast _ hne]

/-- Witness for C9 at the docstring example identifier. -/
theorem pos_is_last_char_witness :
    Synset.id ex_syn = some "eng-30-00324560-v" ∧ Synset.pos ex_syn = Except.ok 'v' := by
  refine ⟨rfl, ?_⟩
  have h := pos_is_last_char ex_syn "eng-30-00324560-v" rfl (by decide)
  rw [h]
  rfl

/-- C5: remove detaches an attached node, the node is gone from the former
parent children, and a second remove fails with DetachedNodeError. -/
theorem remove_detaches (s : Synset) (b a : List Elem)
    (h : s.parentRest = some (b, a)) (hb : s.synset_el ∉ b) (ha : s.synset_el ∉ a) :
    Synset.parent_children s = some (b ++ [s.synset_el] ++ a) ∧
    (Synset.remove s).2 = Except.ok () ∧
    (Synset.remove s).1.parentRest = none ∧
    s.synset_el ∉ b ++ a ∧
    (Synset.remove (Synset.remove s).1).2 = Except.error DetachedNodeError := by
  refine ⟨?_, ?_, ?_, ?_, ?_⟩ <;>
    simp [Synset.remove, Synset.parent_children, h, List.mem_append, hb, ha]

/-- Witness for C5 on a concrete attached node. -/
theorem remove_detaches_witness :
    Synset.parent_children ex_syn_attached
      = some ([] ++ [ex_syn_attached.synset_el] ++ []) ∧
    (Synset.remove ex_syn_attached).2 = Except.ok () ∧
    (Synset.remove ex_syn_attached).1.parentRest = none ∧
    ex_syn_attached.synset_el ∉ ([] : List Elem) ++ ([] : List Elem) ∧
    (Synset.remove (Synset.remove ex_syn_attached).1).2 = Except.error DetachedNodeError :=
  remove_detaches ex_syn_attached [] [] rfl (by simp) (by simp)

/-- C4: every call of add_relation as defined in src fails with the
attribute error for the missing validate_relation and leaves the state
unchanged. -/
theorem add_relation_raises_attribute_error (s : Synset) (reltype target : String) :
    Synset.add_relation s reltype target
      = (s, Except.error (Err.attributeError "validate_relation")) := rfl

/-- C2: with the validation collaborator supplied, adding an already
present (type, target) pair fails with DuplicateRelation, the state is
unchanged and the relation count is unchanged. -/
theorem add_relation_duplicate_rejected (s : Synset) (reltype target : String)
    (h1 : s.reltypes.contains reltype = true)
    (h2 : s.syn_ids.contains target = true)
    (h3 : ((Synset.all_relations s).map
        (fun r => (Relation.get_reltype r, Relation.get_target r))).contains
        (some reltype, some target) = true) :
    Synset.add_relation_v s reltype target = (s, Except.error DuplicateRelation) ∧
    (Synset.all_relations (Synset.add_relation_v s reltype target).1).length
      = (Synset.all_relations s).length := by
  have hmain : Synset.add_relation_v s reltype target
      = (s, Except.error DuplicateRelation) := by
    unfold Synset.add_relation_v Synset.add_relation_with validate_relation_spec
    simp only [h1, h2, h3]
    simp
  exact ⟨hmain, by rw [hmain]⟩

/-- Witness for C2 on the concrete example node. -/
theorem add_relation_duplicate_rejected_witness :
    Synset.add_relation_v ex_syn "has_hyperonym" "eng-30-00322847-v"
      = (ex_syn, Except.error DuplicateRelation) ∧
    (Synset.all_relations
        (Synset.add_relation_v ex_syn "has_hyperonym" "eng-30-00322847-v").1).length
      = (Synset.all_relations ex_syn).length :=
  add_relation_duplicate_rejected ex_syn "has_hyperonym" "eng-30-00322847-v"
    (by decide) (by decide) (by decide)

/-- C3: with the validation collaborator modelled from the spec, an unknown
relation type fails with InvalidRelationType and an unknown target with
InvalidTarget, in both cases without mutating the state. -/
theorem add_relation_validation_errors (s : Synset) (reltype target : String) :
    (s.reltypes.contains reltype = false →
      Synset.add_relation_v s reltype target = (s, Except.error Err.invalidRelationType)) ∧
    (s.reltypes.contains reltype = true → s.syn_ids.contains target = false →
      Synset.add_relation_v s reltype target = (s, Except.error Err.invalidTarget)) := by
  constructor
  · intro h
    unfold Synset.add_relation_v Synset.add_relation_with validate_relation_spec
    simp only [h]
    simp
  · intro h1 h2
    unfold Synset.add_relation_v Synset.add_relation_with validate_relation_spec
    simp only [h1, h2]
    simp

/-- Witness for C3 on the concrete example node. -/
theorem add_relation_validation_errors_witness :
    Synset.add_relation_v ex_syn "bogus_type" "eng-30-00322847-v"
      = (ex_syn, Except.error Err.invalidRelationType) ∧
    Synset.add_relation_v ex_syn "has_hyperonym" "bogus_target"
      = (ex_syn, Except.error Err.invalidTarget) :=
  ⟨(add_relation_validation_errors ex_syn "bogus_type" "eng-30-00322847-v").1 (by decide),
   (add_relation_validation_errors ex_syn "has_hyperonym" "bogus_target").2
     (by decide) (by decide)⟩

/-- C10: on a node constructed without a SynsetRelations child, when
validation passes and the pair is not a duplicate, add_relation raises the
attribute error from appending on the stale cached container reference and
leaves the tree partially mutated: a new empty SynsetRelations element and
the new SynsetRelation element are both attached under the Synset element. -/
theorem add_relation_stale_container_cache (el : Elem)
    (p : Option (List Elem × List Elem)) (rts ids : List String)
    (reltype target : String)
    (hno : find_child_idx el.children "SynsetRelations" = none)
    (h1 : rts.contains reltype = true)
    (h2 : ids.contains target = true)
    (h3 : ((Synset.all_relations (mkSynset el p rts ids)).map
        (fun r => (Relation.get_reltype r, Relation.get_target r))).contains
        (some reltype, some target) = false) :
    Synset.add_relation_v (mkSynset el p rts ids) reltype target
      = ({ mkSynset el p rts ids with
            synset_el := Elem.mk el.tag el.attrs (el.children ++
              [Elem.mk "SynsetRelations" [] [],
               Elem.mk "SynsetRelation"
                 [("provenance", "odwn"), ("relType", reltype), ("target", target)] []]) },
         Except.error (Err.attributeError "append")) := by
  unfold Synset.add_relation_v Synset.add_relation_with validate_relation_spec
  simp only [mkSynset, hno] at h3 ⊢
  simp only [h3, h1, h2]
  simp [appendChild, List.append_assoc, Elem.tag, Elem.attrs, Elem.children]

/-- Witness for C10 on a concrete node with no SynsetRelations child. -/
theorem add_relation_stale_container_cache_witness :
    Synset.add_relation_v ex_syn_nocont "has_hyperonym" "eng-30-00322847-v"
      = ({ mkSynset ex_syn_el_nocont none ex_reltypes ex_syn_ids with
            synset_el := Elem.mk ex_syn_el_nocont.tag ex_syn_el_nocont.attrs
              (ex_syn_el_nocont.children ++
                [Elem.mk "SynsetRelations" [] [],
                 Elem.mk "SynsetRelation"
                   [("provenance", "odwn"), ("relType", "has_hyperonym"),
                    ("target", "eng-30-00322847-v")] []]) },
         Except.error (Err.attributeError "append")) :=
  add_relation_stale_container_cache ex_syn_el_nocont none ex_reltypes ex_syn_ids
    "has_hyperonym" "eng-30-00322847-v" rfl (by decide) (by decide) (by decide)

/-- C1: on a node with no SynsetRelations container, a valid non duplicate
add_relation call fails instead of succeeding, all_relations gains no new
entry, and the new SynsetRelation element sits directly under the Synset
element rather than under a relations container. -/
theorem add_relation_no_container_loses_relation :
    (Synset.add_relation_v ex_syn_nocont "has_hyperonym" "eng-30-00322847-v").2
      = Except.error (Err.attributeError "append") ∧
    Synset.all_relations
        (Synset.add_relation_v ex_syn_nocont "has_hyperonym" "eng-30-00322847-v").1
      = Synset.all_relations ex_syn_nocont ∧
    ((Synset.add_relation_v ex_syn_nocont "has_hyperonym" "eng-30-00322847-v").1.synset_el.children.filter
        (fun c => c.tag = "SynsetRelation")).length = 1 :=
  ⟨rfl, rfl, rfl⟩

/-- C6: a call of add_relation that runs to completion returns None (the
source has no return statement), not a (success, message) pair. -/
theorem add_relation_returns_none :
    (Synset.add_relation_v ex_syn "has_hyponym" "eng-30-00325085-v").2 = Except.ok none ∧
    ∀ (b : Bool) (m : String),
      (Synset.add_relation_v ex_syn "has_hyponym" "eng-30-00325085-v").2
        ≠ Except.ok (some (b, m)) := by
  have h0 : (Synset.add_relation_v ex_syn "has_hyponym" "eng-30-00325085-v").2
      = Except.ok none := rfl
  refine ⟨h0, ?_⟩
  intro b m hcontra
  rw [h0] at hcontra
  simp at hcontra

end ODWN
